import Mathlib

/-!
Shallow embedding of the four test-runner scripts of the WebappTest repository
(`scripts/run_website_tests.py`, `scripts/run_tests.py`, `scripts/run_pytest.py`,
`scripts/run_all_tests.py`) and proofs about them.

External effects (subprocess probes, install commands, the test child process,
file creation) are made explicit: the environment a script runs in is a record
of the facts the script observes (which tools are available, which files
exist, how the child process ends), and each function additionally returns the
trace of external commands it launches or the files it creates.
-/

/-- Outcome of attempting to launch a child process: either the launch call
itself raises (for example the binary is not found when invoking it directly),
or a child process runs and exits with the given code. -/
inductive LaunchOutcome where
  | raises : LaunchOutcome
  | exits : Int → LaunchOutcome
deriving DecidableEq, Repr

/-- Splits a character list at spaces, accumulating the current word in
reverse; mirrors how a space-joined shell command string decomposes back into
the tokens it was built from. -/
def tokens_aux : List Char → List Char → List String
  | [], acc => [String.mk acc.reverse]
  | c :: cs, acc =>
      if c = ' ' then String.mk acc.reverse :: tokens_aux cs []
      else tokens_aux cs (c :: acc)

/-- The whitespace-separated tokens of a shell command string. -/
def tokens (s : String) : List String := tokens_aux s.toList []

namespace RunWebsiteTests

/-- The recognized command-line flags of `run_website_tests.py`
(`parse_arguments`, lines 314-348): the mutually exclusive group
`--unit | --integration | --e2e | --coverage` plus the independent flags
`--watch`, `--verbose`, `--setup`, `--force-node-only`. -/
structure Input where
  unit : Bool
  integration : Bool
  e2e : Bool
  coverage : Bool
  watch : Bool
  verbose : Bool
  setup : Bool
  force_node_only : Bool
deriving DecidableEq, Repr

/-- Number of flags of the mutually exclusive group that are set. -/
def group_count (i : Input) : Nat :=
  [i.unit, i.integration, i.e2e, i.coverage].count true

/-- `parse_arguments` of `run_website_tests.py`: argparse accepts the argument
list unless two flags of the mutually exclusive group are both present, in
which case it prints a usage error and exits the process with status 2
(argparse's usage-error exit status). -/
def parse_arguments (i : Input) : Except Nat Input :=
  if group_count i > 1 then .error 2 else .ok i

/-- The facts about the host that `run_website_tests.py` observes, plus the
outcome of the test child process it may launch. -/
structure Env where
  project_dir : String
  windows : Bool
  node_installed : Bool
  npm_installed : Bool
  package_json_exists : Bool
  node_modules_exists : Bool
  npm_install_ok : Bool
  jest_exists : Bool
  jest_install_ok : Bool
  test_outcome : LaunchOutcome
deriving DecidableEq, Repr

/-- `ensure_node_installed` (lines 47-81): probes `node --version`, then
probes `npm --version`; each probe is attempted unconditionally and sets its
own flag; the function returns the pair of flags.  The second component is the
trace of probe commands launched. -/
def ensure_node_installed (env : Env) : (Bool × Bool) × List (List String) :=
  ((env.node_installed, env.npm_installed),
   [["node", "--version"], ["npm", "--version"]])

/-- The `npm install` command of `ensure_dependencies`. -/
def npm_install_cmd : List String := ["npm", "install"]

/-- The targeted jest install command of `ensure_dependencies` (lines 151-165). -/
def jest_install_cmd : List String :=
  ["npm", "install", "--save-dev", "jest", "@testing-library/jest-dom",
   "jest-environment-jsdom"]

/-- The jest-presence step of `ensure_dependencies` (lines 133-171): if the
jest binary is absent inside the cache, fail when npm is unavailable,
otherwise run the targeted install once and propagate its success.  `tr` is
the trace of install commands already launched. -/
def jest_step (env : Env) (npm_available : Bool) (tr : List (List String)) :
    Bool × List (List String) :=
  if env.jest_exists = false then
    if npm_available = false then (false, tr)
    else if env.jest_install_ok = false then (false, tr ++ [jest_install_cmd])
    else (true, tr ++ [jest_install_cmd])
  else (true, tr)

/-- `ensure_dependencies` (lines 84-173): fail immediately if `package.json`
is absent; if `node_modules` is absent, fail when npm is unavailable,
otherwise run `npm install` once and fail if it fails; then check for the
jest binary (installing it once if absent).  The second component is the
trace of install commands launched. -/
def ensure_dependencies (env : Env) (npm_available : Bool) :
    Bool × List (List String) :=
  if env.package_json_exists = false then (false, [])
  else if env.node_modules_exists = false then
    if npm_available = false then (false, [])
    else if env.npm_install_ok = false then (false, [npm_install_cmd])
    else jest_step env npm_available [npm_install_cmd]
  else jest_step env npm_available []

/-- The jest binary path computed in `run_tests` (lines 226-231):
`node_modules/.bin/jest` (with a `.cmd` suffix on Windows) under the project
directory. -/
def jest_bin_path (project_dir : String) (windows : Bool) : String :=
  project_dir ++ "/node_modules/.bin/" ++ (if windows then "jest.cmd" else "jest")

/-- The test type selected in `run_tests` (lines 210-223): `--unit`, then
`--integration`, then `--e2e`, first match wins; otherwise none. -/
def test_type_of (a : Input) : Option String :=
  if a.unit then some "unit"
  else if a.integration then some "integration"
  else if a.e2e then some "e2e"
  else none

/-- The base command built in `run_tests` (lines 233-261), before the trailing
modifier flags: the npm path picks a named script, the direct path invokes
jest through node with a category glob and a direct coverage switch. -/
def base_command (a : Input) (jest_bin : String) (npm_available : Bool) :
    List String :=
  if npm_available then
    match test_type_of a with
    | some t => ["npm", "run", "test:" ++ t]
    | none => if a.coverage then ["npm", "run", "test:coverage"] else ["npm", "test"]
  else
    let cmd := ["node", jest_bin]
    let cmd :=
      if test_type_of a = some "unit" then
        cmd ++ ["--testMatch", "**/tests/unit/**/*.test.js"]
      else if test_type_of a = some "integration" then
        cmd ++ ["--testMatch", "**/tests/integration/**/*.test.js"]
      else if test_type_of a = some "e2e" then
        cmd ++ ["--testMatch", "**/tests/e2e/**/*.test.js"]
      else cmd
    if a.coverage then cmd ++ ["--coverage"] else cmd

/-- The trailing modifier flags collected in `run_tests` (lines 264-268):
`--verbose` first, then `--watch`. -/
def extra_args_of (a : Input) : List String :=
  (if a.verbose then ["--verbose"] else []) ++ (if a.watch then ["--watch"] else [])

/-- The full command built in `run_tests` (lines 233-274): when npm is
available and there are modifier flags they are appended after a single `--`
separator; when jest is invoked directly they are appended with no
separator. -/
def build_command (a : Input) (jest_bin : String) (npm_available : Bool) :
    List String :=
  let command := base_command a jest_bin npm_available
  let extra := extra_args_of a
  if extra ≠ [] ∧ npm_available = true then command ++ ["--"] ++ extra
  else command ++ extra

/-- The process-execution tail of `run_tests` (lines 279-311): the launch and
the streaming loop are wrapped in a `try` whose handler returns `False`, so a
launch failure is converted into a failed result; otherwise success is exit
code zero. -/
def run_tests_result (outcome : LaunchOutcome) : Bool :=
  match outcome with
  | .raises => false
  | .exits c => c == 0

/-- What one full run of the script does: the process exit code, the trace of
external commands launched, and whether the test-running step (`run_tests`)
was reached. -/
structure MainResult where
  exit : Int
  launched : List (List String)
  ran_tests : Bool
deriving DecidableEq, Repr

/-- `main` of `run_website_tests.py` (lines 351-389) on already-parsed
arguments: check node and npm, fail unless node is present and npm is present
or `--force-node-only` was given, check dependencies, stop with exit 0 when
`--setup` was given, otherwise build and run the test command. -/
def main (env : Env) (a : Input) : MainResult :=
  let pre := ensure_node_installed env
  let node_ok := pre.1.1
  let npm_ok := pre.1.2
  if node_ok = false then ⟨1, pre.2, false⟩
  else if npm_ok = false ∧ a.force_node_only = false then ⟨1, pre.2, false⟩
  else
    let dep := ensure_dependencies env npm_ok
    let tr := pre.2 ++ dep.2
    if dep.1 = false then ⟨1, tr, false⟩
    else if a.setup = true then ⟨0, tr, false⟩
    else
      let jest_bin := jest_bin_path env.project_dir env.windows
      let cmd := build_command a jest_bin npm_ok
      let ok := run_tests_result env.test_outcome
      let tr2 := match env.test_outcome with
        | .raises => tr
        | .exits _ => tr ++ [cmd]
      ⟨if ok then 0 else 1, tr2, true⟩

/-- One whole invocation of the script: argparse first (exiting with its
usage-error status on a flag conflict, before anything else runs), then
`main`. -/
def process (env : Env) (i : Input) : MainResult :=
  match parse_arguments i with
  | .error code => ⟨code, [], false⟩
  | .ok a => main env a

end RunWebsiteTests

namespace RunTests

/-- The recognized command-line flags of `run_tests.py` (`parse_arguments`,
lines 198-228): the mutually exclusive group
`--unit | --integration | --e2e | --all | --coverage` plus the independent
flags `--watch`, `--verbose`, `--check`. -/
structure Input where
  unit : Bool
  integration : Bool
  e2e : Bool
  all : Bool
  coverage : Bool
  watch : Bool
  verbose : Bool
  check : Bool
deriving DecidableEq, Repr

/-- Number of flags of the mutually exclusive group that are set. -/
def group_count (i : Input) : Nat :=
  [i.unit, i.integration, i.e2e, i.all, i.coverage].count true

/-- `parse_arguments` of `run_tests.py`: argparse accepts the argument list
unless two flags of the mutually exclusive group are both present, in which
case it prints a usage error and exits the process with status 2 (argparse's
usage-error exit status). -/
def parse_arguments (i : Input) : Except Nat Input :=
  if group_count i > 1 then .error 2 else .ok i

/-- The facts about the host that `run_tests.py` observes, plus the outcome of
the test child process it may launch.  The `_ok` flags record the exit status
of the corresponding external command, observed through `run_command`. -/
structure Env where
  node_ok : Bool
  npm_ok : Bool
  package_json_exists : Bool
  node_modules_exists : Bool
  npm_install_ok : Bool
  jest_exists : Bool
  jest_install_ok : Bool
  test_outcome : LaunchOutcome
deriving DecidableEq, Repr

/-- `check_prerequisites` (lines 68-92): probe `node --version`; on failure
return `False` at once (npm is not probed); otherwise probe `npm --version`
and return whether it succeeded.  The second component is the trace of probe
commands launched. -/
def check_prerequisites (env : Env) : Bool × List String :=
  if env.node_ok = false then (false, ["node --version"])
  else if env.npm_ok = false then (false, ["node --version", "npm --version"])
  else (true, ["node --version", "npm --version"])

/-- The targeted jest install command of `check_dependencies` (lines 130-133). -/
def jest_install_cmd : String :=
  "npm install --save-dev jest jest-environment-jsdom @testing-library/jest-dom"

/-- The jest-presence step of `check_dependencies` (lines 121-140): if the
jest binary is absent inside the cache, run the targeted install once and
propagate its success.  `tr` is the trace of install commands already
launched. -/
def jest_step (env : Env) (tr : List String) : Bool × List String :=
  if env.jest_exists = false then
    if env.jest_install_ok = false then (false, tr ++ [jest_install_cmd])
    else (true, tr ++ [jest_install_cmd])
  else (true, tr)

/-- `check_dependencies` (lines 95-142): fail immediately if `package.json` is
absent; if `node_modules` is absent, run `npm install` once and fail if it
fails; then check for the jest binary (installing it once if absent).  The
second component is the trace of install commands launched. -/
def check_dependencies (env : Env) : Bool × List String :=
  if env.package_json_exists = false then (false, [])
  else if env.node_modules_exists = false then
    if env.npm_install_ok = false then (false, ["npm install"])
    else jest_step env ["npm install"]
  else jest_step env []

/-- The test type selected in `main` (lines 256-263): `--unit`, then
`--integration`, then `--e2e`, first match wins; otherwise none. -/
def test_type_of (i : Input) : Option String :=
  if i.unit then some "unit"
  else if i.integration then some "integration"
  else if i.e2e then some "e2e"
  else none

/-- The shell command string built in `run_tests` (lines 145-164): a named npm
script (or `npm test`), then ` -- --watch` when watch is set, then
` -- --verbose` when verbose is set — each modifier brings its own `--`
separator. -/
def run_tests_command (test_type : Option String) (coverage watch verbose : Bool) :
    String :=
  let command :=
    match test_type with
    | some t => "npm run test:" ++ t
    | none => if coverage then "npm run test:coverage" else "npm test"
  let command := if watch then command ++ " -- --watch" else command
  let command := if verbose then command ++ " -- --verbose" else command
  command

/-- The process-execution tail of `run_tests` (lines 169-195): the `Popen`
call is not wrapped in any exception handler, so a failure to launch
propagates as an exception (`Except.error`); otherwise success is exit code
zero. -/
def run_tests_exec (outcome : LaunchOutcome) : Except Unit Bool :=
  match outcome with
  | .raises => .error ()
  | .exits c => .ok (c == 0)

/-- What one full run of the script does: the process exit code, the trace of
external commands launched, and whether the test-running step (`run_tests`)
was reached.  -/
structure MainResult where
  exit : Int
  launched : List String
  ran_tests : Bool
deriving DecidableEq, Repr

/-- `main` of `run_tests.py` (lines 231-274) on already-parsed arguments:
check prerequisites, check dependencies, stop with exit 0 when `--check` was
given, otherwise build and run the test command.  An unhandled exception from
the launch propagates (`Except.error`). -/
def main (env : Env) (i : Input) : Except Unit MainResult :=
  let pre := check_prerequisites env
  if pre.1 = false then .ok ⟨1, pre.2, false⟩
  else
    let dep := check_dependencies env
    let tr := pre.2 ++ dep.2
    if dep.1 = false then .ok ⟨1, tr, false⟩
    else if i.check = true then .ok ⟨0, tr, false⟩
    else
      let cmd := run_tests_command (test_type_of i) i.coverage i.watch i.verbose
      match run_tests_exec env.test_outcome with
      | .error () => .error ()
      | .ok ok => .ok ⟨if ok then 0 else 1, tr ++ [cmd], true⟩

/-- One whole invocation of the script: argparse first (exiting with its
usage-error status on a flag conflict, before anything else runs), then
`main`. -/
def process (env : Env) (i : Input) : Except Unit MainResult :=
  match parse_arguments i with
  | .error code => .ok ⟨code, [], false⟩
  | .ok a => main env a

end RunTests

namespace RunPytest

/-- The recognized command-line flags of `run_pytest.py` (`parse_arguments`,
lines 202-234): the mutually exclusive group
`--unit | --integration | --validation | --all` plus the independent flags
`--coverage`, `--verbose`, `--html`, `--setup`. -/
structure Input where
  unit : Bool
  integration : Bool
  validation : Bool
  all : Bool
  coverage : Bool
  verbose : Bool
  html : Bool
  setup : Bool
deriving DecidableEq, Repr

/-- Number of flags of the mutually exclusive group that are set. -/
def group_count (i : Input) : Nat :=
  [i.unit, i.integration, i.validation, i.all].count true

/-- `parse_arguments` of `run_pytest.py`: argparse accepts the argument list
unless two flags of the mutually exclusive group are both present, in which
case it prints a usage error and exits the process with status 2 (argparse's
usage-error exit status). -/
def parse_arguments (i : Input) : Except Nat Input :=
  if group_count i > 1 then .error 2 else .ok i

/-- The facts about the host that `run_pytest.py` observes, plus the outcome
of the test child process it may launch. -/
structure Env where
  pytest_installed : Bool
  pip_install_ok : Bool
  tests_python_exists : Bool
  test_outcome : LaunchOutcome
deriving DecidableEq, Repr

/-- `check_pytest` (lines 76-94): probe `pytest --version`; if it fails,
attempt one `pip install` and propagate its success; otherwise succeed. -/
def check_pytest (env : Env) : Bool :=
  if env.pytest_installed = false then env.pip_install_ok else true

/-- The files and directories created for one category subdirectory of
`ensure_test_directories` (lines 112-131), relative to the project directory:
the subdirectory is made and its `__init__.py` touched; the sample-test
branch then asks whether the glob of `*.py` files (which now holds that
`__init__.py` path) is empty or equals the list holding the bare string
`__init__.py` — the glob returns full paths, so both comparisons are false
and no sample test file is written. -/
def subdir_created (subdir : String) : List String :=
  let dir := "tests/python/" ++ subdir
  let globbed : List String := [dir ++ "/__init__.py"]
  if globbed = [] ∨ globbed = ["__init__.py"] then
    [dir, dir ++ "/__init__.py", dir ++ "/test_sample_" ++ subdir ++ ".py"]
  else
    [dir, dir ++ "/__init__.py"]

/-- `ensure_test_directories` (lines 97-137): when `tests/python` is absent,
create it, touch its `__init__.py`, and create the `unit`, `integration` and
`validation` subdirectories; when it already exists, create nothing.  Always
returns `True`.  The second component is the list of paths created, relative
to the project directory. -/
def ensure_test_directories (tests_python_exists : Bool) : Bool × List String :=
  if tests_python_exists = false then
    (true,
     ["tests/python", "tests/python/__init__.py"]
       ++ subdir_created "unit" ++ subdir_created "integration"
       ++ subdir_created "validation")
  else (true, [])

/-- The process-execution tail of `run_pytest` (lines 173-199): the `Popen`
call is not wrapped in any exception handler, so a failure to launch
propagates as an exception (`Except.error`); otherwise success is exit code
zero. -/
def run_pytest_exec (outcome : LaunchOutcome) : Except Unit Bool :=
  match outcome with
  | .raises => .error ()
  | .exits c => .ok (c == 0)

/-- What one full run of the script does: the process exit code, the list of
paths created by the setup phase, and whether the test-running step
(`run_pytest`) was reached. -/
structure MainResult where
  exit : Int
  created : List String
  ran_tests : Bool
deriving DecidableEq, Repr

/-- `main` of `run_pytest.py` (lines 237-280) on already-parsed arguments:
check pytest, ensure the test directories, stop with exit 0 when `--setup`
was given, otherwise run pytest.  An unhandled exception from the launch
propagates (`Except.error`). -/
def main (env : Env) (a : Input) : Except Unit MainResult :=
  if check_pytest env = false then .ok ⟨1, [], false⟩
  else
    let dirs := ensure_test_directories env.tests_python_exists
    if dirs.1 = false then .ok ⟨1, dirs.2, false⟩
    else if a.setup = true then .ok ⟨0, dirs.2, false⟩
    else
      match run_pytest_exec env.test_outcome with
      | .error () => .error ()
      | .ok ok => .ok ⟨if ok then 0 else 1, dirs.2, true⟩

end RunPytest

namespace RunAllTests

/-- The recognized command-line flags of `run_all_tests.py`
(`parse_arguments`, lines 128-157): the mutually exclusive group
`--js-only | --python-only` plus the independent flags `--coverage`,
`--html-report`, `--verbose`. -/
structure Input where
  js_only : Bool
  python_only : Bool
  coverage : Bool
  html_report : Bool
  verbose : Bool
deriving DecidableEq, Repr

/-- The facts `run_all_tests.py` observes: whether each sub-runner script file
exists on disk, and the integer the sub-runner's `main` returns in this host
environment in those executions where its re-parse of the combined process's
argument list succeeds.  When that re-parse fails no such return value
exists — the sub-runner raises `SystemExit` out of `main` instead, an error
path `run_combined_tests` below models explicitly, so these two fields are
never consulted on it. -/
structure Env where
  js_runner_exists : Bool
  py_runner_exists : Bool
  js_exit : Int
  py_exit : Int
deriving DecidableEq, Repr

/-- What the loaded `run_tests.py` sub-runner's own `parse_arguments` does
when called in-process from the dispatcher: `parser.parse_args()` at
`run_tests.py` line 228 is given no argument list, so it re-parses the
combined process's `sys.argv`.  That argv (already accepted by the
dispatcher's parser) can only hold flags from `--js-only | --python-only |
--coverage | --html-report | --verbose`; of these, `run_tests.py` recognizes
only `--coverage` and `--verbose`, and argparse rejects any argument list
holding an unrecognized flag with a usage error, `SystemExit(2)`.  On
success the sub-runner sees only the flags it shares with the
dispatcher. -/
def js_runner_parse (a : Input) : Except Nat RunTests.Input :=
  if a.js_only = true ∨ a.python_only = true ∨ a.html_report = true then
    .error 2
  else
    RunTests.parse_arguments
      ⟨false, false, false, false, a.coverage, false, a.verbose, false⟩

/-- What the loaded `run_pytest.py` sub-runner's own `parse_arguments` does
when called in-process from the dispatcher: like the JavaScript sub-runner it
re-parses the combined process's `sys.argv` (`run_pytest.py` line 234); it
recognizes `--coverage` and `--verbose` but not `--js-only`, `--python-only`
or `--html-report` (its own report flag is spelled `--html`), so argv holding
any of those three raises `SystemExit(2)`. -/
def py_runner_parse (a : Input) : Except Nat RunPytest.Input :=
  if a.js_only = true ∨ a.python_only = true ∨ a.html_report = true then
    .error 2
  else
    RunPytest.parse_arguments
      ⟨false, false, false, false, a.coverage, a.verbose, false, false⟩

/-- What one run of `run_combined_tests` does when it returns: the returned
exit code, the result map in insertion order, and whether each sub-runner was
actually invoked. -/
structure Outcome where
  exit : Int
  results : List (String × Bool)
  js_invoked : Bool
  py_invoked : Bool
deriving DecidableEq, Repr

/-- `run_combined_tests` (lines 63-125): unless `--python-only`, handle the
JavaScript runner — record it as failed without invoking it when its script
file is missing, else load it and call its `main()`, whose first act is to
re-parse the combined `sys.argv` (`js_runner_parse`); a `SystemExit` raised
there propagates uncaught (there is no handler anywhere in
`run_all_tests.py`), killing the process before any result is recorded;
otherwise record whether `main` returned 0.  Unless `--js-only`, do the same
for the Python runner.  Overall success is the conjunction over all recorded
results.  `Except.error c` is the process dying with exit code `c` from the
propagated `SystemExit`. -/
def run_combined_tests (env : Env) (a : Input) : Except Nat Outcome :=
  let js : Except Nat (List (String × Bool) × Bool) :=
    if a.python_only = false then
      if env.js_runner_exists = false then .ok ([("javascript", false)], false)
      else
        match js_runner_parse a with
        | .error c => .error c
        | .ok _ => .ok ([("javascript", env.js_exit == 0)], true)
    else .ok ([], false)
  match js with
  | .error c => .error c
  | .ok jsr =>
    let py : Except Nat (List (String × Bool) × Bool) :=
      if a.js_only = false then
        if env.py_runner_exists = false then .ok ([("python", false)], false)
        else
          match py_runner_parse a with
          | .error c => .error c
          | .ok _ => .ok ([("python", env.py_exit == 0)], true)
      else .ok ([], false)
    match py with
    | .error c => .error c
    | .ok pyr =>
      let results := jsr.1 ++ pyr.1
      let all_passed := results.foldl (fun acc r => acc && r.2) true
      .ok ⟨if all_passed then 0 else 1, results, jsr.2, pyr.2⟩

end RunAllTests

/-- C3 as frozen says a category-flag conflict exits with code 1; the code
exits through argparse, whose usage-error status is 2: on `--unit
--integration` the whole `run_tests.py` invocation ends with exit code 2 (and
no external command launched), not with exit code 1. -/
theorem C3_counterexample :
    RunTests.process ⟨true, true, true, true, true, true, true, .exits 0⟩
        ⟨true, true, false, false, false, false, false, false⟩ =
      .ok ⟨2, [], false⟩ ∧
    RunTests.process ⟨true, true, true, true, true, true, true, .exits 0⟩
        ⟨true, true, false, false, false, false, false, false⟩ ≠
      .ok ⟨1, [], false⟩ := by
  constructor
  · rfl
  · simp [RunTests.process, RunTests.parse_arguments, RunTests.group_count]

/-- C3 (amended): supplying two mutually exclusive category flags makes
argument parsing fail with argparse's conflicting-option usage error, and the
process exits with argparse's usage-error code 2 before any external child
process is launched. -/
theorem C3_amended :
    (∀ (env : RunTests.Env) (i : RunTests.Input),
      RunTests.group_count i > 1 →
      RunTests.parse_arguments i = .error 2 ∧
      RunTests.process env i = .ok ⟨2, [], false⟩) ∧
    (∀ (env : RunWebsiteTests.Env) (i : RunWebsiteTests.Input),
      RunWebsiteTests.group_count i > 1 →
      RunWebsiteTests.parse_arguments i = .error 2 ∧
      RunWebsiteTests.process env i = ⟨2, [], false⟩) := by
  constructor
  · intro env i h
    have hp : RunTests.parse_arguments i = .error 2 := by
      unfold RunTests.parse_arguments
      rw [if_pos h]
    refine ⟨hp, ?_⟩
    unfold RunTests.process
    rw [hp]
    rfl
  · intro env i h
    have hp : RunWebsiteTests.parse_arguments i = .error 2 := by
      unfold RunWebsiteTests.parse_arguments
      rw [if_pos h]
    refine ⟨hp, ?_⟩
    unfold RunWebsiteTests.process
    rw [hp]
    rfl

/-- Witness for C3 (amended) at the concrete conflict `--unit --e2e` for
`run_tests.py` and `--integration --coverage` for `run_website_tests.py`. -/
theorem C3_witness :
    RunTests.process ⟨true, true, true, true, true, true, true, .exits 0⟩
        ⟨true, false, true, false, false, false, false, false⟩ =
      .ok ⟨2, [], false⟩ ∧
    RunWebsiteTests.process
        ⟨"p", false, true, true, true, true, true, true, true, .exits 0⟩
        ⟨false, true, false, true, false, false, false, false⟩ =
      ⟨2, [], false⟩ :=
  ⟨(C3_amended.1 _ _ (by decide)).2, (C3_amended.2 _ _ (by decide)).2⟩

/-- C5: when the manifest file `package.json` does not exist, both dependency
checks (`ensure_dependencies` of `run_website_tests.py` and
`check_dependencies` of `run_tests.py`) return false immediately with an
empty trace of install commands. -/
theorem C5_manifest_missing (e1 : RunWebsiteTests.Env) (npm : Bool)
    (e2 : RunTests.Env)
    (h1 : e1.package_json_exists = false) (h2 : e2.package_json_exists = false) :
    RunWebsiteTests.ensure_dependencies e1 npm = (false, []) ∧
    RunTests.check_dependencies e2 = (false, []) := by
  constructor
  · unfold RunWebsiteTests.ensure_dependencies
    rw [h1]
    rfl
  · unfold RunTests.check_dependencies
    rw [h2]
    rfl

/-- Witness for C5 at a concrete environment with `package.json` absent. -/
theorem C5_witness :
    RunWebsiteTests.ensure_dependencies
        ⟨"p", false, true, true, false, false, true, false, true, .exits 0⟩ true =
      (false, []) ∧
    RunTests.check_dependencies
        ⟨true, true, false, false, true, false, true, .exits 0⟩ = (false, []) :=
  C5_manifest_missing _ true _ rfl rfl

/-- C7 as frozen says every required tool is probed even when one is missing;
in `run_tests.py`'s `check_prerequisites`, when node is unavailable the
function returns false at once and npm is never probed. -/
theorem C7_counterexample :
    RunTests.check_prerequisites
        ⟨false, true, true, true, true, true, true, .exits 0⟩ =
      (false, ["node --version"]) ∧
    "npm --version" ∉
      (RunTests.check_prerequisites
        ⟨false, true, true, true, true, true, true, .exits 0⟩).2 := by
  constructor
  · rfl
  · decide

/-- C7 (amended): in `run_website_tests.py`'s checker both tools are always
probed independently and the result is the pair of per-tool availability
flags; in `run_tests.py`'s checker the overall boolean still equals the
conjunction of the two availabilities, but the check short-circuits — when
node is missing, npm is not probed. -/
theorem C7_amended :
    (∀ env : RunWebsiteTests.Env,
      RunWebsiteTests.ensure_node_installed env =
        ((env.node_installed, env.npm_installed),
         [["node", "--version"], ["npm", "--version"]])) ∧
    (∀ env : RunTests.Env,
      (RunTests.check_prerequisites env).1 = (env.node_ok && env.npm_ok) ∧
      (env.node_ok = false →
        (RunTests.check_prerequisites env).2 = ["node --version"])) := by
  constructor
  · intro env
    rfl
  · intro env
    unfold RunTests.check_prerequisites
    rcases env with ⟨n, m, a, b, c, d, e, o⟩
    cases n <;> cases m <;> simp

/-- Witness for C7 (amended) at a concrete environment with node missing. -/
theorem C7_witness :
    (RunTests.check_prerequisites
      ⟨false, true, true, true, true, true, true, .exits 0⟩).2 =
    ["node --version"] :=
  (C7_amended.2 ⟨false, true, true, true, true, true, true, .exits 0⟩).2 rfl

/-- C8 as frozen says every runner converts a launch failure into a failed
result; in `run_tests.py` (and `run_pytest.py`) the launch is not guarded, so
a failure to start the child propagates as an exception instead of being
returned as false. -/
theorem C8_counterexample :
    RunTests.run_tests_exec LaunchOutcome.raises = .error () ∧
    RunTests.run_tests_exec LaunchOutcome.raises ≠ .ok false ∧
    RunPytest.run_pytest_exec LaunchOutcome.raises = .error () := by
  refine ⟨rfl, ?_, rfl⟩
  simp [RunTests.run_tests_exec]

/-- C8 (amended): `run_website_tests.py` catches any failure to launch the
test child process and converts it into a failed result (false), and maps an
exit code to success exactly when it is zero; in `run_tests.py` and
`run_pytest.py` the launch is not wrapped in a handler, so a launch failure
propagates as an exception. -/
theorem C8_amended :
    RunWebsiteTests.run_tests_result LaunchOutcome.raises = false ∧
    (∀ c : Int,
      RunWebsiteTests.run_tests_result (LaunchOutcome.exits c) = (c == 0)) ∧
    RunTests.run_tests_exec LaunchOutcome.raises = .error () ∧
    RunPytest.run_pytest_exec LaunchOutcome.raises = .error () :=
  ⟨rfl, fun _ => rfl, rfl, rfl⟩

/-- C9 as frozen says every modifier flag, including `--coverage`, combines
with any single category flag; in both `run_tests.py` and
`run_website_tests.py` the `--coverage` flag is a member of the mutually
exclusive group, so `--unit --coverage` fails to parse in both. -/
theorem C9_counterexample :
    RunTests.parse_arguments
        ⟨true, false, false, false, true, false, false, false⟩ = .error 2 ∧
    RunWebsiteTests.parse_arguments
        ⟨true, false, false, true, false, false, false, false⟩ = .error 2 :=
  ⟨rfl, rfl⟩

/-- C9 (amended): any argument list that sets at most one flag of the
mutually exclusive group parses successfully, with every flag of the
invocation plan equal to the corresponding input flag; the remaining modifier
flags (`--watch`, `--verbose`, `--check`, `--setup`, `--force-node-only`,
`--html`) are unconstrained, and `--coverage` is unconstrained only in
`run_pytest.py` — in the two JavaScript runners it belongs to the exclusive
group. -/
theorem C9_amended :
    (∀ i : RunTests.Input,
      RunTests.group_count i ≤ 1 → RunTests.parse_arguments i = .ok i) ∧
    (∀ i : RunWebsiteTests.Input,
      RunWebsiteTests.group_count i ≤ 1 →
      RunWebsiteTests.parse_arguments i = .ok i) ∧
    (∀ i : RunPytest.Input,
      RunPytest.group_count i ≤ 1 → RunPytest.parse_arguments i = .ok i) := by
  refine ⟨?_, ?_, ?_⟩ <;>
    · intro i h
      first
      | (unfold RunTests.parse_arguments; rw [if_neg (by omega)])
      | (unfold RunWebsiteTests.parse_arguments; rw [if_neg (by omega)])
      | (unfold RunPytest.parse_arguments; rw [if_neg (by omega)])

/-- Witness for C9 (amended): `--unit --watch --verbose` parses in
`run_tests.py`, and `--unit --coverage` parses in `run_pytest.py`. -/
theorem C9_witness :
    RunTests.parse_arguments
        ⟨true, false, false, false, false, true, true, false⟩ =
      .ok ⟨true, false, false, false, false, true, true, false⟩ ∧
    RunPytest.parse_arguments
        ⟨true, false, false, false, true, false, false, false⟩ =
      .ok ⟨true, false, false, false, true, false, false, false⟩ :=
  ⟨C9_amended.1 _ (by decide), C9_amended.2.2 _ (by decide)⟩

/-- C10 as frozen says no file is ever created outside the dependency cache;
`run_pytest.py`'s setup phase, run when the `tests/python` directory is
absent, creates that directory (among others) — a path that does not lie in
the `node_modules` dependency cache. -/
theorem C10_counterexample :
    "tests/python" ∈ (RunPytest.ensure_test_directories false).2 ∧
    ((RunPytest.ensure_test_directories false).2.all
      (fun p => "node_modules".toList.isPrefixOf p.toList)) = false := by
  constructor <;> decide

/-- C10 (amended): the setup phase of `run_pytest.py` creates nothing when
`tests/python` already exists; when it is absent it creates exactly the
`tests/python` tree — the directory, its `__init__.py`, and the `unit`,
`integration` and `validation` subdirectories each with an `__init__.py`
(the sample-test branch never fires, since it compares full glob paths
against a bare filename) — and every created path lies under `tests/python`;
beyond this, the scripts create files only through the external install
commands recorded in their traces. -/
theorem C10_amended :
    RunPytest.ensure_test_directories true = (true, []) ∧
    RunPytest.ensure_test_directories false =
      (true,
       ["tests/python", "tests/python/__init__.py",
        "tests/python/unit", "tests/python/unit/__init__.py",
        "tests/python/integration", "tests/python/integration/__init__.py",
        "tests/python/validation", "tests/python/validation/__init__.py"]) ∧
    ((RunPytest.ensure_test_directories false).2.all
      (fun p => "tests/python".toList.isPrefixOf p.toList)) = true := by
  refine ⟨rfl, by decide, by decide⟩

/-- C4 names the intended dispatch behavior, but the code defeats it: each
loaded sub-runner's `main` re-parses the combined process's `sys.argv`, so
the dispatcher-only flags `--js-only`, `--python-only` and `--html-report`
make the first sub-runner that runs raise `SystemExit(2)` out of argparse,
uncaught — the process dies with exit code 2 and an empty result map (no
entry is ever recorded, and with `--js-only` the promised single
`javascript` entry never exists).  Only an argument list free of
dispatcher-only flags behaves as the claim describes: both sub-runners are
invoked (JavaScript then Python, here with `--coverage --verbose` forwarded)
and the exit code is 0 exactly when both returned 0. -/
theorem C4_dispatcher_reparse_crash :
    RunAllTests.run_combined_tests ⟨true, true, 0, 0⟩
        ⟨true, false, false, false, false⟩ = .error 2 ∧
    RunAllTests.run_combined_tests ⟨true, true, 0, 0⟩
        ⟨false, true, false, false, false⟩ = .error 2 ∧
    RunAllTests.run_combined_tests ⟨true, true, 0, 0⟩
        ⟨false, false, false, true, false⟩ = .error 2 ∧
    RunAllTests.run_combined_tests ⟨true, true, 0, 1⟩
        ⟨false, false, true, false, true⟩ =
      .ok ⟨1, [("javascript", true), ("python", false)], true, true⟩ ∧
    RunAllTests.run_combined_tests ⟨true, true, 0, 0⟩
        ⟨false, false, false, false, false⟩ =
      .ok ⟨0, [("javascript", true), ("python", true)], true, true⟩ :=
  ⟨rfl, rfl, rfl, rfl, rfl⟩

/-- C6: with `--setup` present, once the prerequisite and dependency checks
succeed the process exits with code 0 whatever the category or modifier flags
are, and the test-running step is never reached — in `run_website_tests.py`
(node present, npm present or `--force-node-only`, dependencies available)
and in `run_pytest.py` (pytest available). -/
theorem C6_setup_short_circuit :
    (∀ (env : RunWebsiteTests.Env) (a : RunWebsiteTests.Input),
      a.setup = true →
      env.node_installed = true →
      (env.npm_installed = true ∨ a.force_node_only = true) →
      (RunWebsiteTests.ensure_dependencies env env.npm_installed).1 = true →
      (RunWebsiteTests.main env a).exit = 0 ∧
      (RunWebsiteTests.main env a).ran_tests = false) ∧
    (∀ (env : RunPytest.Env) (a : RunPytest.Input),
      a.setup = true →
      RunPytest.check_pytest env = true →
      RunPytest.main env a =
        .ok ⟨0, (RunPytest.ensure_test_directories env.tests_python_exists).2,
             false⟩) := by
  constructor
  · intro env a hs hn hnf hdep
    have hmain : RunWebsiteTests.main env a =
        ⟨0, (RunWebsiteTests.ensure_node_installed env).2 ++
            (RunWebsiteTests.ensure_dependencies env env.npm_installed).2,
         false⟩ := by
      unfold RunWebsiteTests.main
      rw [RunWebsiteTests.ensure_node_installed]
      simp only [hn, hs]
      rcases hnf with hnpm | hf
      · rw [hnpm] at hdep ⊢
        simp [hdep]
      · rw [hf]
        cases hm : env.npm_installed <;> rw [hm] at hdep <;> simp [hdep]
    rw [hmain]
    exact ⟨rfl, rfl⟩
  · intro env a hs hp
    unfold RunPytest.main
    rw [hp]
    have hdir : (RunPytest.ensure_test_directories env.tests_python_exists).1 =
        true := by
      unfold RunPytest.ensure_test_directories
      cases env.tests_python_exists <;> simp
    simp [hdir, hs]

/-- Witness for C6: `--setup` together with the category flag `--unit` (and
`--verbose`) exits 0 without reaching the test-running step, in both
scripts. -/
theorem C6_witness :
    ((RunWebsiteTests.main
        ⟨"p", false, true, true, true, true, true, true, true, .exits 1⟩
        ⟨true, false, false, false, false, true, true, false⟩).exit = 0 ∧
     (RunWebsiteTests.main
        ⟨"p", false, true, true, true, true, true, true, true, .exits 1⟩
        ⟨true, false, false, false, false, true, true, false⟩).ran_tests =
       false) ∧
    RunPytest.main ⟨true, true, true, .exits 1⟩
        ⟨true, false, false, false, false, true, false, true⟩ =
      .ok ⟨0, [], false⟩ :=
  ⟨C6_setup_short_circuit.1 _ _ rfl rfl (Or.inl rfl) (by decide),
   C6_setup_short_circuit.2 ⟨true, true, true, .exits 1⟩ _ rfl rfl⟩

/-- The separator token is never one of the trailing modifier flags. -/
theorem sep_not_mem_extra (a : RunWebsiteTests.Input) :
    "--" ∉ RunWebsiteTests.extra_args_of a := by
  unfold RunWebsiteTests.extra_args_of
  cases hv : a.verbose <;> cases hw : a.watch <;> simp

/-- The separator token never occurs in the base command, on either path,
provided the jest binary path is not itself the separator. -/
theorem sep_not_mem_base (a : RunWebsiteTests.Input) (jest_bin : String)
    (npm : Bool) (hj : jest_bin ≠ "--") :
    "--" ∉ RunWebsiteTests.base_command a jest_bin npm := by
  unfold RunWebsiteTests.base_command RunWebsiteTests.test_type_of
  rcases a with ⟨u, ig, e, c, w, v, s, f⟩
  cases npm <;> cases u <;> cases ig <;> cases e <;> cases c <;>
    simp [Ne.symm hj]

/-- C1 as frozen says the modifier flags are appended after a single
separator token on the package-manager path; in `run_tests.py`, each of
`--watch` and `--verbose` brings its own ` -- ` prefix, so the command built
for `--unit --watch --verbose` contains the separator token twice, not
once. -/
theorem C1_counterexample :
    ((tokens (RunTests.run_tests_command
        (RunTests.test_type_of ⟨true, false, false, false, false, true, true,
          false⟩) false true true)).count "--" = 2) ∧
    ¬ ((tokens (RunTests.run_tests_command
        (RunTests.test_type_of ⟨true, false, false, false, false, true, true,
          false⟩) false true true)).count "--" = 1) := by
  constructor <;> decide

/-- C1 (amended): in `run_website_tests.py` the built command contains the
separator token exactly when the package manager is available and a modifier
flag is set — never on the direct path — and in that case the command is the
base command followed by a single separator followed by the modifier flags;
in `run_tests.py` (whose command builder always goes through npm) each set
modifier flag is appended preceded by its own separator token, so the number
of separator tokens equals the number of set modifier flags among `--watch`
and `--verbose`. -/
theorem C1_amended :
    (∀ (a : RunWebsiteTests.Input) (jest_bin : String) (npm : Bool),
      jest_bin ≠ "--" →
      (("--" ∈ RunWebsiteTests.build_command a jest_bin npm) ↔
        (npm = true ∧ RunWebsiteTests.extra_args_of a ≠ [])) ∧
      (npm = true → RunWebsiteTests.extra_args_of a ≠ [] →
        RunWebsiteTests.build_command a jest_bin true =
          RunWebsiteTests.base_command a jest_bin true
            ++ "--" :: RunWebsiteTests.extra_args_of a)) ∧
    (∀ i : RunTests.Input,
      (tokens (RunTests.run_tests_command (RunTests.test_type_of i)
          i.coverage i.watch i.verbose)).count "--" =
        (if i.watch then 1 else 0) + (if i.verbose then 1 else 0)) := by
  constructor
  · intro a jest_bin npm hj
    constructor
    · unfold RunWebsiteTests.build_command
      by_cases hcond : RunWebsiteTests.extra_args_of a ≠ [] ∧ npm = true
      · rw [if_pos hcond]
        constructor
        · intro _
          exact ⟨hcond.2, hcond.1⟩
        · intro _
          simp
      · rw [if_neg hcond]
        constructor
        · intro hmem
          rcases List.mem_append.mp hmem with h | h
          · exact absurd h (sep_not_mem_base a jest_bin npm hj)
          · exact absurd h (sep_not_mem_extra a)
        · intro hrhs
          exact absurd ⟨hrhs.2, hrhs.1⟩ hcond
    · intro hnpm hextra
      unfold RunWebsiteTests.build_command
      rw [if_pos ⟨hextra, rfl⟩]
      simp
  · intro i
    rcases i with ⟨u, ig, e, al, cov, w, v, ch⟩
    cases al <;> cases ch <;> cases u <;> cases ig <;> cases e <;> cases cov <;>
      cases w <;> cases v <;> decide

/-- Witness for C1 (amended): with `--watch` set, the npm-path command of
`run_website_tests.py` contains the separator and the direct-path command
does not; the `run_tests.py` command for `--watch --verbose` has two
separator tokens. -/
theorem C1_witness :
    ("--" ∈ RunWebsiteTests.build_command
        ⟨false, false, false, false, true, false, false, false⟩ "jest" true) ∧
    ¬ ("--" ∈ RunWebsiteTests.build_command
        ⟨false, false, false, false, true, false, false, false⟩ "jest" false) ∧
    (tokens (RunTests.run_tests_command
        (RunTests.test_type_of ⟨false, false, false, false, false, true, true,
          false⟩) false true true)).count "--" = 2 :=
  ⟨((C1_amended.1 ⟨false, false, false, false, true, false, false, false⟩
      "jest" true (by decide)).1).mpr ⟨rfl, by decide⟩,
   fun h => by
     have h2 := ((C1_amended.1
       ⟨false, false, false, false, true, false, false, false⟩
       "jest" false (by decide)).1).mp h
     exact absurd h2.1 (by decide),
   by
     have h3 := C1_amended.2
       ⟨false, false, false, false, false, true, true, false⟩
     simpa using h3⟩

/-- C2: when npm is unavailable and the plan's category is `integration`
(so the `--unit` and `--coverage` group flags are unset), the built command
is the direct jest invocation through node carrying the integration glob
pattern, followed by the directly-appended modifier flags, and it contains
no separator token anywhere. -/
theorem C2_direct_integration (a : RunWebsiteTests.Input) (jest_bin : String)
    (hu : a.unit = false) (hi : a.integration = true) (hc : a.coverage = false)
    (hj : jest_bin ≠ "--") :
    RunWebsiteTests.build_command a jest_bin false =
      ["node", jest_bin, "--testMatch", "**/tests/integration/**/*.test.js"]
        ++ RunWebsiteTests.extra_args_of a ∧
    "--" ∉ RunWebsiteTests.build_command a jest_bin false := by
  have hbase : RunWebsiteTests.base_command a jest_bin false =
      ["node", jest_bin, "--testMatch", "**/tests/integration/**/*.test.js"] := by
    unfold RunWebsiteTests.base_command
    simp [RunWebsiteTests.test_type_of, hu, hi, hc]
  have hbuild : RunWebsiteTests.build_command a jest_bin false =
      RunWebsiteTests.base_command a jest_bin false ++
        RunWebsiteTests.extra_args_of a := by
    unfold RunWebsiteTests.build_command
    rw [if_neg]
    intro hcond
    cases hcond.2
  constructor
  · rw [hbuild, hbase]
  · rw [hbuild]
    intro hmem
    rcases List.mem_append.mp hmem with h | h
    · exact absurd h (sep_not_mem_base a jest_bin false hj)
    · exact absurd h (sep_not_mem_extra a)

/-- Witness for C2 at the concrete plan `--integration --watch --verbose`
with npm unavailable: the command is the direct jest invocation with the
integration glob and the modifiers appended with no separator. -/
theorem C2_witness :
    RunWebsiteTests.build_command
        ⟨false, true, false, false, true, true, false, false⟩
        "node_modules/.bin/jest" false =
      ["node", "node_modules/.bin/jest", "--testMatch",
       "**/tests/integration/**/*.test.js", "--verbose", "--watch"] := by
  have h := (C2_direct_integration
    ⟨false, true, false, false, true, true, false, false⟩
    "node_modules/.bin/jest" rfl rfl rfl (by decide)).1
  simpa using h
